import Mathlib

/-! Grease-pencil colour picker, `source/blender/editors/gpencil/gpencil_colorpick.c`.

A shallow embedding of the modal colour-picker operator: the session record
`tGPDpick`, its construction in `gp_session_init_colorpick`, the drawing routine
`gpencil_draw_color_table` and the event handler `gpencil_colorpick_modal`.

Conventions of the embedding.

* C `int` values are `Int`.  Signed overflow is undefined in C, so the
  arithmetic is the mathematical one; `/` and `%` are the truncating
  `Int.tdiv` and `Int.tmod`.
* Pointers into the host's data (`wmWindow *`, `ScrArea *`, `Palette *`, ...)
  are addresses of type `Nat`; a pointer that may be `NULL` is an `Option`.
* A C `float` is a `CFloat`: sign, mantissa and exponent, the two infinities
  and NaN.  The file only copies floats and compares one with `0.0f`.
* Calls into the host (window manager, editor screen API) are recorded in
  order as `HostCall` values; immediate-mode GPU output is recorded as `Prim`
  values (one per `immBegin .. immEnd`).
* Enumerators of the host headers that this file switches on are the fields of
  `HostConsts`.
-/

namespace GPColorpick

/-! ## Scalars and vectors -/

/-- A C `float`: NaN, a signed infinity, or `(-1)^neg * mant * 2^exp`
(both zeros are `mant = 0`). -/
inductive CFloat where
  | nan
  | inf (neg : Bool)
  | fin (neg : Bool) (mant : Nat) (exp : Int)
deriving DecidableEq, Repr

namespace CFloat

/-- The C comparison `x > 0.0f` (false on NaN and on both zeros). -/
def gt_zero : CFloat → Bool
  | nan => false
  | inf neg => !neg
  | fin neg mant _ => !neg && decide (0 < mant)

/-- The C comparison `x <= 0.0f` (false on NaN, true on both zeros). -/
def le_zero : CFloat → Bool
  | nan => false
  | inf neg => neg
  | fin neg mant _ => neg || decide (mant = 0)

/-- The literal `1.0f`. -/
def one : CFloat := fin false 1 0

/-- The literal `0.0f`. -/
def zero : CFloat := fin false 0 0

end CFloat

/-- A `float[4]` colour. -/
structure Float4 where
  v0 : CFloat
  v1 : CFloat
  v2 : CFloat
  v3 : CFloat
deriving DecidableEq, Repr

/-- A `float[3]` colour, as `UI_GetThemeColor3fv` writes it. -/
structure Float3 where
  v0 : CFloat
  v1 : CFloat
  v2 : CFloat
deriving DecidableEq, Repr

/-- Modelled from the spec: `copy_v4_v4` of the host's math library, which is
not under src; it copies the four components of a colour (the table's "RGBA
fill/stroke colors" are copies of the palette's). The destination is the
result. -/
def copy_v4_v4 (a : Float4) : Float4 :=
  { v0 := a.v0, v1 := a.v1, v2 := a.v2, v3 := a.v3 }

/-- Modelled from the spec: the `CLAMP_MIN(a, b)` macro of the host's utility
header, which is not under src; it raises `a` to `b` when `a < b` ("computed
grid geometry (rows, columns ...)" with at least one row and one column). The
new value of `a` is the result. -/
def CLAMP_MIN (a b : Int) : Int :=
  if a < b then b else a

/-- The integer rectangle `rcti` of the host (`xmin, xmax, ymin, ymax`). -/
structure rcti where
  xmin : Int
  xmax : Int
  ymin : Int
  ymax : Int
deriving DecidableEq, Repr

/-! ## Palette data of the host -/

/-- The fields of a `PaletteColor` that the picker reads. -/
structure PaletteColor where
  rgb : Float4
  fill : Float4
deriving DecidableEq, Repr

/-- The fields of a `Palette` that the picker reads: the linked list `colors`
in list order and `active_color`. -/
structure Palette where
  colors : List PaletteColor
  active_color : Int
deriving DecidableEq, Repr

/-- Modelled from the spec: `BLI_listbase_count` of the host's list library,
which is not under src; it is the number of links of a list (the table has one
entry "per swatch"). -/
def BLI_listbase_count (l : List PaletteColor) : Int :=
  (l.length : Int)

/-! ## The picking session -/

def GP_BOX_SIZE : Int := 24

def GP_BOX_GAP : Int := 6

/-- One entry of the colour table, `tGPDpickColor`. -/
structure tGPDpickColor where
  index : Int
  rgba : Float4
  fill : Float4
  rect : rcti
deriving DecidableEq, Repr

/-- The session record `tGPDpick` (the fields this file uses). `colors` is the
allocated table, empty when none was allocated; `boxsize` is the two-element
array. -/
structure tGPDpick where
  win : Nat
  scene : Nat
  ob : Nat
  sa : Nat
  ar : Nat
  palette : Option Nat
  rect : rcti
  panel : rcti
  colors : List tGPDpickColor
  totcolor : Int
  boxsize : Int × Int
  row : Int
  col : Int
  draw_handle_3d : Option Nat
deriving DecidableEq, Repr

/-- What the picker reads through `bContext *C`: the context handles, the
visible rectangle `ED_region_visible_rect` reports for the region, the palette
`BKE_gpencil_paletteslot_validate` returns, and the host's palette memory. -/
structure bContext where
  wm_window : Nat
  data_scene : Nat
  data_active_object : Nat
  wm_area : Nat
  wm_region : Nat
  region_visible_rect : rcti
  paletteslot_palette : Nat
  palettes : Nat → Palette

/-- The operator; `customdata` is `NULL` or the session. -/
structure wmOperator where
  customdata : Option tGPDpick
deriving DecidableEq, Repr

/-- The fields of `wmEvent` the handler reads. -/
structure wmEvent where
  type : Int
  mval : Int × Int
deriving DecidableEq, Repr

/-! ## `gp_session_init_colorpick` -/

/-- The body of the table-loading loop for one palette colour, at loop state
`row`, `col`, `idx`. -/
def load_color (panel : rcti) (boxsize : Int × Int) (palcol : PaletteColor)
    (idx row col : Int) : tGPDpickColor :=
  let rgba := copy_v4_v4 palcol.rgb
  let fill := if palcol.fill.v3.gt_zero then copy_v4_v4 palcol.fill else copy_v4_v4 palcol.rgb
  let xmin := panel.xmin + (boxsize.1 * col) + (GP_BOX_GAP * (col + 1))
  let xmax := xmin + boxsize.1
  let ymax := panel.ymax - (boxsize.2 * row) - (GP_BOX_GAP * (row + 1))
  let ymin := ymax - boxsize.1
  { index := idx, rgba := rgba, fill := fill,
    rect := { xmin := xmin, xmax := xmax, ymin := ymin, ymax := ymax } }

/-- The loop `for (palcol = palette->colors.first; palcol; palcol = palcol->next)`
writing consecutive table entries, from loop state `idx`, `row`, `col`. -/
def load_color_table (tgpk_row : Int) (panel : rcti) (boxsize : Int × Int) :
    List PaletteColor → Int → Int → Int → List tGPDpickColor
  | [], _, _, _ => []
  | palcol :: rest, idx, row, col =>
    let tcolor := load_color panel boxsize palcol idx row col
    let idx1 := idx + 1
    let row1 := row + 1
    if row1 > tgpk_row - 1 then
      tcolor :: load_color_table tgpk_row panel boxsize rest idx1 0 (col + 1)
    else
      tcolor :: load_color_table tgpk_row panel boxsize rest idx1 row1 col

/-- Number of rows: `(rect.ymax - rect.ymin - GP_BOX_GAP) / (boxsize[1] + GP_BOX_GAP)`
clamped from below to 1. -/
def init_row (rect : rcti) (boxsize : Int × Int) : Int :=
  CLAMP_MIN ((rect.ymax - rect.ymin - GP_BOX_GAP).tdiv (boxsize.2 + GP_BOX_GAP)) 1

/-- Number of columns: `totcolor / row`, one more when `totcolor % row > 0`,
clamped from below to 1. -/
def init_col (totcolor row : Int) : Int :=
  let col := totcolor.tdiv row
  let col := if totcolor.tmod row > 0 then col + 1 else col
  CLAMP_MIN col 1

/-- The session `gp_session_init_colorpick` allocates and returns. -/
def gp_session_init_colorpick (C : bContext) : tGPDpick :=
  let rect := C.region_visible_rect
  let palette := C.palettes C.paletteslot_palette
  let totcolor := BLI_listbase_count palette.colors
  let boxsize : Int × Int := (GP_BOX_SIZE, GP_BOX_SIZE)
  let row := init_row rect boxsize
  let col := init_col totcolor row
  let panel : rcti :=
    { xmin := rect.xmax - (GP_BOX_SIZE * col) - (GP_BOX_GAP * (col + 1)),
      ymin := rect.ymin,
      xmax := rect.xmax,
      ymax := rect.ymax }
  { win := C.wm_window,
    scene := C.data_scene,
    ob := C.data_active_object,
    sa := C.wm_area,
    ar := C.wm_region,
    palette := some C.paletteslot_palette,
    rect := rect,
    panel := panel,
    colors := load_color_table row panel boxsize palette.colors 0 0 0,
    totcolor := totcolor,
    boxsize := boxsize,
    row := row,
    col := col,
    draw_handle_3d := none }

/-! ## Drawing -/

/-- One vertex given to the GPU: the colour attribute in force and the two
integer expressions passed to `immVertex2f`. -/
structure Vertex where
  color : Float4
  x : Int
  y : Int
deriving DecidableEq, Repr

/-- One `immBeginAtMost .. immEnd` batch. -/
inductive Prim where
  | lines (verts : List Vertex)
  | tris (verts : List Vertex)
deriving DecidableEq, Repr

/-- The vertices of a batch. -/
def Prim.verts : Prim → List Vertex
  | Prim.lines vs => vs
  | Prim.tris vs => vs

/-- `gp_draw_boxlines`: the outline of `box` as four line segments. -/
def gp_draw_boxlines (box : rcti) (ink : Float4) : Prim :=
  Prim.lines
    [ { color := ink, x := box.xmin, y := box.ymax - 1 },
      { color := ink, x := box.xmax, y := box.ymax - 1 },
      { color := ink, x := box.xmin, y := box.ymin },
      { color := ink, x := box.xmax, y := box.ymin },
      { color := ink, x := box.xmax, y := box.ymax },
      { color := ink, x := box.xmax, y := box.ymin },
      { color := ink, x := box.xmin, y := box.ymax },
      { color := ink, x := box.xmin, y := box.ymin } ]

/-- `gp_draw_fill_box`: `box` grown by `offset` as two triangles, the first in
`ink`, the second in `fill`. -/
def gp_draw_fill_box (box : rcti) (ink fill : Float4) (offset : Int) : Prim :=
  let gap : Int := if offset > 0 then 1 else 0
  Prim.tris
    [ { color := ink, x := box.xmin - offset, y := box.ymin - offset },
      { color := ink, x := box.xmin - offset, y := box.ymax + offset },
      { color := ink, x := box.xmax + offset + gap, y := box.ymax + offset },
      { color := fill, x := box.xmin - offset, y := box.ymin - offset },
      { color := fill, x := box.xmax + offset + gap, y := box.ymax + offset },
      { color := fill, x := box.xmax + offset + gap, y := box.ymin - offset } ]

/-- The theme colours the host returns for `TH_SELECT`, `TH_TAB_OUTLINE`
(three components each) and `TH_PANEL_BACK` (four components). -/
structure ThemeColors where
  TH_SELECT : Float3
  TH_TAB_OUTLINE : Float3
  TH_PANEL_BACK : Float4
deriving DecidableEq, Repr

/-- The loop `for (int i = 0; i < tgpk->totcolor; i++, col++)` of
`gpencil_draw_color_table`, from counter `i` with `col` pointing at the head of
the given table suffix. -/
def draw_color_boxes (active_color : Int) (select line : Float4) (totcolor : Int) :
    Int → List tGPDpickColor → List Prim
  | _, [] => []
  | i, col :: rest =>
    if i < totcolor then
      (if active_color = i then [gp_draw_fill_box col.rect select select 2] else [])
        ++ gp_draw_fill_box col.rect col.rgba col.fill 0
        :: gp_draw_boxlines col.rect line
        :: draw_color_boxes active_color select line totcolor (i + 1) rest
    else []

/-- `gpencil_draw_color_table`: the batches drawn for a session, in order. -/
def gpencil_draw_color_table (th : ThemeColors) (palettes : Nat → Palette)
    (tgpk : tGPDpick) : List Prim :=
  match tgpk.palette with
  | none => []
  | some palette =>
    let select : Float4 :=
      { v0 := th.TH_SELECT.v0, v1 := th.TH_SELECT.v1, v2 := th.TH_SELECT.v2, v3 := CFloat.one }
    let line : Float4 :=
      { v0 := th.TH_TAB_OUTLINE.v0, v1 := th.TH_TAB_OUTLINE.v1, v2 := th.TH_TAB_OUTLINE.v2,
        v3 := CFloat.one }
    let ink := th.TH_PANEL_BACK
    gp_draw_fill_box tgpk.panel ink ink 0
      :: draw_color_boxes (palettes palette).active_color select line tgpk.totcolor 0 tgpk.colors

/-! ## Operator callbacks -/

/-- Enumerators of the host headers used by the callbacks: event types,
operator return flags and cursor identifiers. -/
structure HostConsts where
  ESCKEY : Int
  RIGHTMOUSE : Int
  MOUSEMOVE : Int
  LEFTMOUSE : Int
  OPERATOR_RUNNING_MODAL : Nat
  OPERATOR_CANCELLED : Nat
  OPERATOR_FINISHED : Nat
  OPERATOR_PASS_THROUGH : Nat
  BC_EYEDROPPER_CURSOR : Int
  CURSOR_STD : Int
deriving DecidableEq, Repr

/-- The four labels of `switch (event->type)` are pairwise different, as C
requires of the case labels of one switch. -/
def HostConsts.case_labels_distinct (K : HostConsts) : Prop :=
  K.ESCKEY ≠ K.RIGHTMOUSE ∧ K.ESCKEY ≠ K.MOUSEMOVE ∧ K.ESCKEY ≠ K.LEFTMOUSE ∧
  K.RIGHTMOUSE ≠ K.MOUSEMOVE ∧ K.RIGHTMOUSE ≠ K.LEFTMOUSE ∧ K.MOUSEMOVE ≠ K.LEFTMOUSE

/-- The pass-through flag is neither the finished nor the cancelled flag. -/
def HostConsts.pass_through_distinct (K : HostConsts) : Prop :=
  K.OPERATOR_PASS_THROUGH ≠ K.OPERATOR_FINISHED ∧
  K.OPERATOR_PASS_THROUGH ≠ K.OPERATOR_CANCELLED

/-- The two cursor identifiers are different. -/
def HostConsts.cursors_distinct (K : HostConsts) : Prop :=
  K.BC_EYEDROPPER_CURSOR ≠ K.CURSOR_STD

instance (K : HostConsts) : Decidable K.case_labels_distinct := by
  unfold HostConsts.case_labels_distinct; infer_instance

instance (K : HostConsts) : Decidable K.pass_through_distinct := by
  unfold HostConsts.pass_through_distinct; infer_instance

instance (K : HostConsts) : Decidable K.cursors_distinct := by
  unfold HostConsts.cursors_distinct; infer_instance

/-- A call into the host, with the arguments that identify it. -/
inductive HostCall where
  | WM_cursor_modal_set (win : Nat) (cursor : Int)
  | WM_cursor_modal_restore (win : Nat)
  | ED_area_headerprint (sa : Nat) (str : Option String)
  | ED_region_draw_cb_activate (ar : Nat)
  | ED_region_draw_cb_exit (ar : Nat) (handle : Nat)
  | WM_event_add_notifier
  | WM_event_add_modal_handler
deriving DecidableEq, Repr

/-- A call that sets or restores the modal cursor. -/
def HostCall.is_cursor_call : HostCall → Bool
  | HostCall.WM_cursor_modal_set _ _ => true
  | HostCall.WM_cursor_modal_restore _ => true
  | _ => false

/-- `gpencil_colorpick_exit`: the operator afterwards and the host calls made.
The session and its table are freed; `customdata` is cleared. -/
def gpencil_colorpick_exit (C : bContext) (op : wmOperator) : wmOperator × List HostCall :=
  let restore := [HostCall.WM_cursor_modal_restore C.wm_window]
  let freed :=
    match op.customdata with
    | some tgpk =>
      HostCall.ED_area_headerprint tgpk.sa none ::
        (match tgpk.draw_handle_3d with
         | some handle => [HostCall.ED_region_draw_cb_exit tgpk.ar handle]
         | none => [])
    | none => []
  ({ customdata := none }, restore ++ freed ++ [HostCall.WM_event_add_notifier])

/-- `gpencil_colorpick_invoke`, given the handle `ED_region_draw_cb_activate`
returns: the operator afterwards, the host calls made and the return value.
`gp_session_init_colorpick` always returns a session, so the cancelling branch
is not taken. -/
def gpencil_colorpick_invoke (K : HostConsts) (C : bContext) (handle : Nat) :
    wmOperator × List HostCall × Nat :=
  let tgpk := gp_session_init_colorpick C
  let tgpk := { tgpk with draw_handle_3d := some handle }
  ({ customdata := some tgpk },
   [HostCall.ED_region_draw_cb_activate tgpk.ar,
    HostCall.ED_area_headerprint tgpk.sa (some "Select: ESC/RMB cancel, LMB Select color"),
    HostCall.WM_event_add_notifier,
    HostCall.WM_event_add_modal_handler],
   K.OPERATOR_RUNNING_MODAL)

/-- What one run of the modal handler leaves behind: the operator, the host's
palette memory, the host calls made in order, and the return value. -/
structure ModalResult where
  op : wmOperator
  palettes : Nat → Palette
  calls : List HostCall
  estate : Nat

/-- The first switch of `gpencil_colorpick_modal`, `switch (event->type)`: the
new `estate` and the host calls made; `none` when `tgpk` is dereferenced while
`NULL`. -/
def modal_event_switch (K : HostConsts) (tgpk : Option tGPDpick) (event : wmEvent) :
    Option (Nat × List HostCall) :=
  let estate := K.OPERATOR_PASS_THROUGH
  if event.type = K.ESCKEY ∨ event.type = K.RIGHTMOUSE then
    some (K.OPERATOR_CANCELLED, [])
  else if event.type = K.MOUSEMOVE then
    match tgpk with
    | none => none
    | some t =>
      if (event.mval.1 ≥ t.panel.xmin) ∧ (event.mval.1 ≤ t.panel.xmax) ∧
         (event.mval.2 ≥ t.panel.ymin) ∧ (event.mval.2 ≤ t.panel.ymax) then
        some (estate, [HostCall.WM_cursor_modal_set t.win K.BC_EYEDROPPER_CURSOR])
      else
        some (estate, [HostCall.WM_cursor_modal_set t.win K.CURSOR_STD])
  else if event.type = K.LEFTMOUSE then
    some (K.OPERATOR_FINISHED, [])
  else
    some (estate, [])

/-- `gpencil_colorpick_modal`: the event switch, then `switch (estate)`, which
calls `gpencil_colorpick_exit` on finished and on cancelled. -/
def gpencil_colorpick_modal (K : HostConsts) (C : bContext) (op : wmOperator)
    (event : wmEvent) : Option ModalResult :=
  match modal_event_switch K op.customdata event with
  | none => none
  | some (estate, calls) =>
    if estate = K.OPERATOR_FINISHED then
      let r := gpencil_colorpick_exit C op
      some { op := r.1, palettes := C.palettes, calls := calls ++ r.2, estate := estate }
    else if estate = K.OPERATOR_CANCELLED then
      let r := gpencil_colorpick_exit C op
      some { op := r.1, palettes := C.palettes, calls := calls ++ r.2, estate := estate }
    else if estate = (K.OPERATOR_RUNNING_MODAL ||| K.OPERATOR_PASS_THROUGH) then
      some { op := op, palettes := C.palettes, calls := calls, estate := estate }
    else
      some { op := op, palettes := C.palettes, calls := calls, estate := estate }

/-! ## Geometry predicates used in the statements -/

/-- The point `(x, y)` lies in the rectangle, edges included. -/
def rcti.contains (r : rcti) (x y : Int) : Prop :=
  r.xmin ≤ x ∧ x ≤ r.xmax ∧ r.ymin ≤ y ∧ y ≤ r.ymax

instance (r : rcti) (x y : Int) : Decidable (r.contains x y) := by
  unfold rcti.contains; infer_instance

/-- The rectangle grown by `d` on each of its four sides. -/
def rcti.grow (r : rcti) (d : Int) : rcti :=
  { xmin := r.xmin - d, xmax := r.xmax + d, ymin := r.ymin - d, ymax := r.ymax + d }

/-- Every vertex of the batch lies in the rectangle, edges included. -/
def Prim.within (p : Prim) (r : rcti) : Prop :=
  ∀ v ∈ p.verts, r.contains v.x v.y

instance (p : Prim) (r : rcti) : Decidable (p.within r) := by
  unfold Prim.within; infer_instance

/-! ## The drawing as the specification words it -/

/-- The rectangle `r` filled by two triangles, the first in `ink` and the
second in `fill`. -/
def spec_filled_rect (r : rcti) (ink fill : Float4) : Prim :=
  Prim.tris
    [ { color := ink, x := r.xmin, y := r.ymin },
      { color := ink, x := r.xmin, y := r.ymax },
      { color := ink, x := r.xmax, y := r.ymax },
      { color := fill, x := r.xmin, y := r.ymin },
      { color := fill, x := r.xmax, y := r.ymax },
      { color := fill, x := r.xmax, y := r.ymin } ]

/-- The theme's select colour, made opaque. -/
def spec_select (th : ThemeColors) : Float4 :=
  { v0 := th.TH_SELECT.v0, v1 := th.TH_SELECT.v1, v2 := th.TH_SELECT.v2, v3 := CFloat.one }

/-- The theme's outline colour, made opaque. -/
def spec_line (th : ThemeColors) : Float4 :=
  { v0 := th.TH_TAB_OUTLINE.v0, v1 := th.TH_TAB_OUTLINE.v1, v2 := th.TH_TAB_OUTLINE.v2,
    v3 := CFloat.one }

/-- The selection highlight of a swatch: its rectangle grown by 2 pixels to the
left, bottom and top and by 3 pixels to the right, in the select colour. -/
def spec_highlight (th : ThemeColors) (rect : rcti) : Prim :=
  spec_filled_rect
    { xmin := rect.xmin - 2, xmax := rect.xmax + 3, ymin := rect.ymin - 2, ymax := rect.ymax + 2 }
    (spec_select th) (spec_select th)

/-- What is drawn for the swatch at table position `i`: the highlight when `i`
is the active colour, then the swatch's fill box, then its outline. -/
def spec_swatch (th : ThemeColors) (active_color : Int) (i : Nat) (col : tGPDpickColor) :
    List Prim :=
  (if active_color = (i : Int) then [spec_highlight th col.rect] else [])
    ++ [spec_filled_rect col.rect col.rgba col.fill, gp_draw_boxlines col.rect (spec_line th)]

/-- What is drawn for a session with a palette: one panel background, then
every swatch of the table in order. -/
def spec_color_table (th : ThemeColors) (active_color : Int) (tgpk : tGPDpick) : List Prim :=
  spec_filled_rect tgpk.panel th.TH_PANEL_BACK th.TH_PANEL_BACK
    :: (tgpk.colors.enum.map (fun ic => spec_swatch th active_color ic.1 ic.2)).flatten

/-- The table positions of a session whose swatch is highlighted. -/
def highlighted_positions (active_color : Int) (tgpk : tGPDpick) : List Nat :=
  (List.range tgpk.colors.length).filter (fun i : Nat => decide (active_color = (i : Int)))

/-! ## Sample data -/

/-- One admissible assignment of the host enumerators. -/
def sample_consts : HostConsts :=
  { ESCKEY := 218, RIGHTMOUSE := 3, MOUSEMOVE := 4, LEFTMOUSE := 1,
    OPERATOR_RUNNING_MODAL := 1, OPERATOR_CANCELLED := 2, OPERATOR_FINISHED := 4,
    OPERATOR_PASS_THROUGH := 8, BC_EYEDROPPER_CURSOR := 16, CURSOR_STD := 1 }

/-- Opaque red, with a transparent fill. -/
def sample_red : PaletteColor :=
  { rgb := { v0 := CFloat.one, v1 := CFloat.zero, v2 := CFloat.zero, v3 := CFloat.one },
    fill := { v0 := CFloat.zero, v1 := CFloat.zero, v2 := CFloat.zero, v3 := CFloat.zero } }

/-- Opaque green, with a half-transparent blue fill. -/
def sample_green : PaletteColor :=
  { rgb := { v0 := CFloat.zero, v1 := CFloat.one, v2 := CFloat.zero, v3 := CFloat.one },
    fill := { v0 := CFloat.zero, v1 := CFloat.zero, v2 := CFloat.one,
              v3 := CFloat.fin false 1 (-1) } }

/-- A palette of three colours whose first colour is active. -/
def sample_palette : Palette :=
  { colors := [sample_red, sample_green, sample_red], active_color := 0 }

/-- A context whose region is 200 wide and 66 high (two rows of swatches). -/
def sample_context : bContext :=
  { wm_window := 1, data_scene := 2, data_active_object := 3, wm_area := 4, wm_region := 5,
    region_visible_rect := { xmin := 0, xmax := 200, ymin := 0, ymax := 66 },
    paletteslot_palette := 7,
    palettes := fun _ => sample_palette }

/-- The operator after `gpencil_colorpick_invoke` in the sample context. -/
def sample_op : wmOperator :=
  (gpencil_colorpick_invoke sample_consts sample_context 9).1

/-- The session attached to `sample_op`. -/
def sample_session : tGPDpick :=
  { gp_session_init_colorpick sample_context with draw_handle_3d := some 9 }

/-- A theme with grey panel, white selection and black outline. -/
def sample_theme : ThemeColors :=
  { TH_SELECT := { v0 := CFloat.one, v1 := CFloat.one, v2 := CFloat.one },
    TH_TAB_OUTLINE := { v0 := CFloat.zero, v1 := CFloat.zero, v2 := CFloat.zero },
    TH_PANEL_BACK := { v0 := CFloat.fin false 1 (-1), v1 := CFloat.fin false 1 (-1),
                       v2 := CFloat.fin false 1 (-1), v3 := CFloat.one } }

/-- The first swatch of the sample session (top of the first column). -/
def sample_swatch0 : tGPDpickColor :=
  { index := 0, rgba := sample_red.rgb, fill := sample_red.rgb,
    rect := { xmin := 140, xmax := 164, ymin := 36, ymax := 60 } }

/-- The second swatch of the sample session (below the first). -/
def sample_swatch1 : tGPDpickColor :=
  { index := 1, rgba := sample_green.rgb, fill := sample_green.fill,
    rect := { xmin := 140, xmax := 164, ymin := 6, ymax := 30 } }

/-- A left click at `(150, 20)`, inside the second swatch. -/
def sample_click : wmEvent :=
  { type := sample_consts.LEFTMOUSE, mval := (150, 20) }

/-- A pointer move to `(150, 20)`, inside the panel. -/
def sample_move : wmEvent :=
  { type := sample_consts.MOUSEMOVE, mval := (150, 20) }

/-- A key press that the handler does not know (type 97). -/
def sample_key : wmEvent :=
  { type := 97, mval := (150, 20) }

/-! ## Arithmetic of the grid -/

theorem CLAMP_MIN_eq_max (a b : Int) : CLAMP_MIN a b = max b a := by
  unfold CLAMP_MIN
  split_ifs with h
  · exact (max_eq_left (le_of_lt h)).symm
  · exact (max_eq_right (not_lt.mp h)).symm

theorem init_row_pos (rect : rcti) (boxsize : Int × Int) : 1 ≤ init_row rect boxsize := by
  unfold init_row
  rw [CLAMP_MIN_eq_max]
  exact le_max_left _ _

theorem init_col_pos (totcolor row : Int) : 1 ≤ init_col totcolor row := by
  unfold init_col
  simp only [CLAMP_MIN_eq_max]
  exact le_max_left _ _

/-- With at least one row and a non-negative colour count, the column count is
the ceiling of `totcolor / row`, raised to 1. -/
theorem init_col_spec (n row : Int) (hn : 0 ≤ n) (hrow : 1 ≤ row) :
    n ≤ row * init_col n row ∧ ∀ c : Int, 0 < c → n ≤ row * c → init_col n row ≤ c := by
  have hrow0 : 0 ≤ row := by omega
  have hrowpos : 0 < row := by omega
  have hd : n.tdiv row = n / row := Int.tdiv_eq_ediv hn hrow0
  have hm : n.tmod row = n % row := Int.tmod_eq_emod hn hrow0
  have hdecomp : row * (n / row) + n % row = n := Int.ediv_add_emod n row
  have hmod0 : 0 ≤ n % row := Int.emod_nonneg n (by omega)
  have hmodlt : n % row < row := Int.emod_lt_of_pos n hrowpos
  have hq0 : 0 ≤ n / row := Int.ediv_nonneg hn hrow0
  unfold init_col
  simp only [CLAMP_MIN_eq_max, hd, hm]
  constructor
  · split_ifs with h
    · have : n / row + 1 ≤ max 1 (n / row + 1) := le_max_right _ _
      nlinarith
    · have h0 : n % row = 0 := by omega
      have : n / row ≤ max 1 (n / row) := le_max_right _ _
      nlinarith
  · intro c hc hle
    have hqc : n / row ≤ c := by
      by_contra hcon
      have : c + 1 ≤ n / row := by omega
      nlinarith
    split_ifs with h
    · apply max_le (by omega)
      by_contra hcon
      have hceq : c = n / row := by omega
      subst hceq
      omega
    · exact max_le (by omega) hqc

/-! ## The table-loading loop -/

theorem load_color_table_length (R : Int) (panel : rcti) (bs : Int × Int) :
    ∀ (l : List PaletteColor) (idx row col : Int),
      (load_color_table R panel bs l idx row col).length = l.length := by
  intro l
  induction l with
  | nil => intro idx row col; simp [load_color_table]
  | cons pc rest ih =>
    intro idx row col
    unfold load_color_table
    simp only
    split_ifs <;> simp [ih]

/-- Entry `k` written by the loop from state `idx`, `row`, `col`. -/
theorem load_color_table_entry (R : Int) (hR : 1 ≤ R) (panel : rcti) (bs : Int × Int) :
    ∀ (l : List PaletteColor) (idx row col : Int) (k : Nat), 0 ≤ row → row < R →
      (load_color_table R panel bs l idx row col)[k]? =
        (l[k]?).map (fun pc =>
          load_color panel bs pc (idx + k) ((row + k) % R) (col + (row + k) / R)) := by
  intro l
  induction l with
  | nil => intro idx row col k _ _; simp [load_color_table]
  | cons pc rest ih =>
    intro idx row col k h0 hlt
    unfold load_color_table
    simp only
    cases k with
    | zero =>
      have e1 : row % R = row := Int.emod_eq_of_lt h0 hlt
      have e2 : row / R = 0 := Int.ediv_eq_zero_of_lt h0 hlt
      split_ifs <;> simp [e1, e2]
    | succ k =>
      split_ifs with h
      · have hrow : row + 1 = R := by omega
        have e1 : (row + ((k + 1 : Nat) : Int)) % R = ((0 : Int) + (k : Int)) % R := by
          have : row + ((k + 1 : Nat) : Int) = R + (k : Int) := by push_cast; omega
          rw [this, Int.add_emod_self_left]; simp
        have e2 : col + (row + ((k + 1 : Nat) : Int)) / R
            = col + 1 + ((0 : Int) + (k : Int)) / R := by
          have : row + ((k + 1 : Nat) : Int) = (k : Int) + R * 1 := by push_cast; omega
          rw [this, Int.add_mul_ediv_left _ _ (by omega : R ≠ 0)]; simp; ring
        have e3 : idx + ((k + 1 : Nat) : Int) = idx + 1 + (k : Int) := by push_cast; ring
        simp only [List.getElem?_cons_succ]
        rw [ih (idx + 1) 0 (col + 1) k le_rfl (by omega), e1, e2, e3]
      · have e1 : row + ((k + 1 : Nat) : Int) = row + 1 + (k : Int) := by push_cast; ring
        have e3 : idx + ((k + 1 : Nat) : Int) = idx + 1 + (k : Int) := by push_cast; ring
        simp only [List.getElem?_cons_succ]
        rw [ih (idx + 1) (row + 1) col k (by omega) (by omega), e1, e3]

/-- Entry `k` of the table of a fresh session, in closed form. -/
theorem init_colors_entry (C : bContext) (k : Nat) :
    (gp_session_init_colorpick C).colors[k]? =
      ((C.palettes C.paletteslot_palette).colors[k]?).map (fun pc =>
        load_color (gp_session_init_colorpick C).panel (GP_BOX_SIZE, GP_BOX_SIZE) pc (k : Int)
          ((k : Int) % (gp_session_init_colorpick C).row)
          ((k : Int) / (gp_session_init_colorpick C).row)) := by
  have hR := init_row_pos C.region_visible_rect (GP_BOX_SIZE, GP_BOX_SIZE)
  have h := load_color_table_entry _ hR (gp_session_init_colorpick C).panel
    (GP_BOX_SIZE, GP_BOX_SIZE) (C.palettes C.paletteslot_palette).colors 0 0 0 k le_rfl
    (by omega)
  simpa [gp_session_init_colorpick] using h

theorem init_colors_length (C : bContext) :
    (gp_session_init_colorpick C).colors.length
      = (C.palettes C.paletteslot_palette).colors.length := by
  simp [gp_session_init_colorpick, load_color_table_length]

theorem init_row_eq (C : bContext) :
    (gp_session_init_colorpick C).row
      = max 1 ((C.region_visible_rect.ymax - C.region_visible_rect.ymin - 6).tdiv 30) := by
  simp [gp_session_init_colorpick, init_row, CLAMP_MIN_eq_max, GP_BOX_SIZE, GP_BOX_GAP]

theorem init_row_ge_one (C : bContext) : 1 ≤ (gp_session_init_colorpick C).row := by
  rw [init_row_eq]; exact le_max_left _ _

theorem init_panel_width (C : bContext) :
    (gp_session_init_colorpick C).panel.xmax - (gp_session_init_colorpick C).panel.xmin
      = 30 * (gp_session_init_colorpick C).col + 6 := by
  simp [gp_session_init_colorpick, GP_BOX_SIZE, GP_BOX_GAP]; ring

/-- The grid of a fresh session has room for every palette colour. -/
theorem init_col_capacity (C : bContext) :
    ((C.palettes C.paletteslot_palette).colors.length : Int)
      ≤ (gp_session_init_colorpick C).row * (gp_session_init_colorpick C).col :=
  (init_col_spec _ _ (Int.natCast_nonneg _)
    (init_row_pos C.region_visible_rect (GP_BOX_SIZE, GP_BOX_SIZE))).1

/-! ## Claims about `gp_session_init_colorpick` -/

/-- C4: for every visible region rectangle and every palette with `n` colours,
`gp_session_init_colorpick` sets `row = max(1, (height - 6) / 30)` with
truncating division, sets `col` to the least positive integer with
`row * col >= n`, and makes the panel the right-aligned full-height strip of
width `24 * col + 6 * (col + 1)`. -/
theorem init_grid_and_panel (C : bContext) :
    (gp_session_init_colorpick C).row
        = max 1 ((C.region_visible_rect.ymax - C.region_visible_rect.ymin - 6).tdiv 30) ∧
    (0 < (gp_session_init_colorpick C).col ∧
      ((C.palettes C.paletteslot_palette).colors.length : Int)
        ≤ (gp_session_init_colorpick C).row * (gp_session_init_colorpick C).col ∧
      ∀ c : Int, 0 < c →
        ((C.palettes C.paletteslot_palette).colors.length : Int)
          ≤ (gp_session_init_colorpick C).row * c →
        (gp_session_init_colorpick C).col ≤ c) ∧
    (gp_session_init_colorpick C).panel.xmax = C.region_visible_rect.xmax ∧
    (gp_session_init_colorpick C).panel.ymin = C.region_visible_rect.ymin ∧
    (gp_session_init_colorpick C).panel.ymax = C.region_visible_rect.ymax ∧
    (gp_session_init_colorpick C).panel.xmin
        = C.region_visible_rect.xmax
          - (24 * (gp_session_init_colorpick C).col
              + 6 * ((gp_session_init_colorpick C).col + 1)) := by
  refine ⟨init_row_eq C, ?_, rfl, rfl, rfl, ?_⟩
  · have hrow := init_row_pos C.region_visible_rect (GP_BOX_SIZE, GP_BOX_SIZE)
    have hn : (0 : Int) ≤ ((C.palettes C.paletteslot_palette).colors.length : Int) :=
      Int.natCast_nonneg _
    have hspec := init_col_spec _ _ hn hrow
    have hpos := init_col_pos ((C.palettes C.paletteslot_palette).colors.length : Int)
      (init_row C.region_visible_rect (GP_BOX_SIZE, GP_BOX_SIZE))
    refine ⟨?_, ?_, ?_⟩
    · show 0 < init_col _ _
      simp only [BLI_listbase_count]; omega
    · exact hspec.1
    · exact hspec.2
  · simp [gp_session_init_colorpick, GP_BOX_SIZE, GP_BOX_GAP]; ring

/-- C5: the colour table built by `gp_session_init_colorpick` has exactly `n`
entries in palette order; entry `k` has index `k`, carries the colour of
palette colour `k`, and its 24x24 rectangle is placed column-major from the
top: with `c = k / row` and `r = k % row` (C operators),
`xmin = panel.xmin + 24*c + 6*(c+1)`, `xmax = xmin + 24`,
`ymax = panel.ymax - 24*r - 6*(r+1)`, `ymin = ymax - 24`. -/
theorem init_color_table (C : bContext) :
    (gp_session_init_colorpick C).totcolor
        = ((C.palettes C.paletteslot_palette).colors.length : Int) ∧
    (gp_session_init_colorpick C).colors.length
        = (C.palettes C.paletteslot_palette).colors.length ∧
    ∀ k : Nat, k < (C.palettes C.paletteslot_palette).colors.length →
      ∃ (e : tGPDpickColor) (pc : PaletteColor),
        (gp_session_init_colorpick C).colors[k]? = some e ∧
        (C.palettes C.paletteslot_palette).colors[k]? = some pc ∧
        e.index = (k : Int) ∧ e.rgba = pc.rgb ∧
        e.rect.xmin = (gp_session_init_colorpick C).panel.xmin
            + 24 * ((k : Int).tdiv (gp_session_init_colorpick C).row)
            + 6 * ((k : Int).tdiv (gp_session_init_colorpick C).row + 1) ∧
        e.rect.xmax = e.rect.xmin + 24 ∧
        e.rect.ymax = (gp_session_init_colorpick C).panel.ymax
            - 24 * ((k : Int).tmod (gp_session_init_colorpick C).row)
            - 6 * ((k : Int).tmod (gp_session_init_colorpick C).row + 1) ∧
        e.rect.ymin = e.rect.ymax - 24 := by
  refine ⟨rfl, init_colors_length C, ?_⟩
  intro k hk
  have hrow := init_row_ge_one C
  have hk0 : (0 : Int) ≤ (k : Int) := Int.natCast_nonneg _
  have hd : (k : Int).tdiv (gp_session_init_colorpick C).row
      = (k : Int) / (gp_session_init_colorpick C).row := Int.tdiv_eq_ediv hk0 (by omega)
  have hm : (k : Int).tmod (gp_session_init_colorpick C).row
      = (k : Int) % (gp_session_init_colorpick C).row := Int.tmod_eq_emod hk0 (by omega)
  have hpc : (C.palettes C.paletteslot_palette).colors[k]?
      = some ((C.palettes C.paletteslot_palette).colors[k]) := List.getElem?_eq_getElem hk
  refine ⟨load_color (gp_session_init_colorpick C).panel (GP_BOX_SIZE, GP_BOX_SIZE)
      ((C.palettes C.paletteslot_palette).colors[k]) (k : Int)
      ((k : Int) % (gp_session_init_colorpick C).row)
      ((k : Int) / (gp_session_init_colorpick C).row),
    (C.palettes C.paletteslot_palette).colors[k], ?_, hpc, ?_⟩
  · rw [init_colors_entry, hpc]; rfl
  · rw [hd, hm]
    simp [load_color, copy_v4_v4, GP_BOX_SIZE, GP_BOX_GAP]

/-- Position and rectangle of entry `k` of a fresh session, with the 24 + 6
pitch folded into multiples of 30. -/
theorem init_entry_rect (C : bContext) (k : Nat) (e : tGPDpickColor)
    (h : (gp_session_init_colorpick C).colors[k]? = some e) :
    k < (C.palettes C.paletteslot_palette).colors.length ∧
    e.rect.xmin = (gp_session_init_colorpick C).panel.xmin
        + 30 * ((k : Int) / (gp_session_init_colorpick C).row) + 6 ∧
    e.rect.xmax = (gp_session_init_colorpick C).panel.xmin
        + 30 * ((k : Int) / (gp_session_init_colorpick C).row) + 30 ∧
    e.rect.ymax = (gp_session_init_colorpick C).panel.ymax
        - 30 * ((k : Int) % (gp_session_init_colorpick C).row) - 6 ∧
    e.rect.ymin = (gp_session_init_colorpick C).panel.ymax
        - 30 * ((k : Int) % (gp_session_init_colorpick C).row) - 30 := by
  rw [init_colors_entry] at h
  rcases hpc : (C.palettes C.paletteslot_palette).colors[k]? with _ | pc
  · rw [hpc] at h; simp at h
  · rw [hpc] at h
    simp only [Option.map_some', Option.some.injEq] at h
    have hk : k < (C.palettes C.paletteslot_palette).colors.length := by
      rcases List.getElem?_eq_some.mp hpc with ⟨hlt, _⟩
      exact hlt
    subst h
    refine ⟨hk, ?_, ?_, ?_, ?_⟩ <;>
      simp [load_color, GP_BOX_SIZE, GP_BOX_GAP] <;> ring

/-- C8: when the visible height `rect.ymax - rect.ymin` is at least 36, every
swatch rectangle computed by `gp_session_init_colorpick` lies inside the panel
with a margin of at least 6 pixels on each side. -/
theorem init_swatch_inside_panel (C : bContext)
    (hh : 36 ≤ C.region_visible_rect.ymax - C.region_visible_rect.ymin) :
    ∀ e ∈ (gp_session_init_colorpick C).colors,
      (gp_session_init_colorpick C).panel.xmin + 6 ≤ e.rect.xmin ∧
      e.rect.xmax ≤ (gp_session_init_colorpick C).panel.xmax - 6 ∧
      (gp_session_init_colorpick C).panel.ymin + 6 ≤ e.rect.ymin ∧
      e.rect.ymax ≤ (gp_session_init_colorpick C).panel.ymax - 6 := by
  intro e he
  obtain ⟨k, hk⟩ := List.mem_iff_getElem?.mp he
  obtain ⟨hlt, hx0, hx1, hy1, hy0⟩ := init_entry_rect C k e hk
  have hrow := init_row_eq C
  have hcap := init_col_capacity C
  have hpy0 : (gp_session_init_colorpick C).panel.ymin = C.region_visible_rect.ymin := rfl
  have hpy1 : (gp_session_init_colorpick C).panel.ymax = C.region_visible_rect.ymax := rfl
  have hw := init_panel_width C
  have hrow1 := init_row_ge_one C
  have hrowpos : 0 < (gp_session_init_colorpick C).row := by omega
  have hk0 : (0 : Int) ≤ (k : Int) := Int.natCast_nonneg _
  have hq0 : 0 ≤ (k : Int) / (gp_session_init_colorpick C).row :=
    Int.ediv_nonneg hk0 (by omega)
  have hm0 : 0 ≤ (k : Int) % (gp_session_init_colorpick C).row :=
    Int.emod_nonneg _ (by omega)
  have hmlt : (k : Int) % (gp_session_init_colorpick C).row < (gp_session_init_colorpick C).row :=
    Int.emod_lt_of_pos _ hrowpos
  have hkn : (k : Int) < ((C.palettes C.paletteslot_palette).colors.length : Int) := by
    exact_mod_cast hlt
  have hqlt : (k : Int) / (gp_session_init_colorpick C).row < (gp_session_init_colorpick C).col := by
    apply Int.ediv_lt_of_lt_mul hrowpos
    rw [mul_comm]; omega
  have hrows : 30 * (gp_session_init_colorpick C).row
      ≤ C.region_visible_rect.ymax - C.region_visible_rect.ymin - 6 := by
    have hnn : (0 : Int) ≤ C.region_visible_rect.ymax - C.region_visible_rect.ymin - 6 := by
      omega
    rw [hrow, Int.tdiv_eq_ediv hnn (by norm_num)]
    omega
  refine ⟨?_, ?_, ?_, ?_⟩ <;> omega

/-- C9: the swatch rectangles computed by `gp_session_init_colorpick` are
pairwise disjoint: the rectangles at two distinct table positions are
separated by at least 6 pixels in x or in y, so no point, edges included, lies
in both. -/
theorem init_swatches_disjoint (C : bContext) (i j : Nat) (ei ej : tGPDpickColor)
    (hij : i ≠ j)
    (hi : (gp_session_init_colorpick C).colors[i]? = some ei)
    (hj : (gp_session_init_colorpick C).colors[j]? = some ej) :
    (ei.rect.xmax + 6 ≤ ej.rect.xmin ∨ ej.rect.xmax + 6 ≤ ei.rect.xmin ∨
      ei.rect.ymax + 6 ≤ ej.rect.ymin ∨ ej.rect.ymax + 6 ≤ ei.rect.ymin) ∧
    ∀ x y : Int, ¬ (ei.rect.contains x y ∧ ej.rect.contains x y) := by
  obtain ⟨-, hix0, hix1, hiy1, hiy0⟩ := init_entry_rect C i ei hi
  obtain ⟨-, hjx0, hjx1, hjy1, hjy0⟩ := init_entry_rect C j ej hj
  have hrow1 := init_row_ge_one C
  have hdi := Int.ediv_add_emod (i : Int) (gp_session_init_colorpick C).row
  have hdj := Int.ediv_add_emod (j : Int) (gp_session_init_colorpick C).row
  have hne : (i : Int) ≠ (j : Int) := by exact_mod_cast hij
  have hsep : ei.rect.xmax + 6 ≤ ej.rect.xmin ∨ ej.rect.xmax + 6 ≤ ei.rect.xmin ∨
      ei.rect.ymax + 6 ≤ ej.rect.ymin ∨ ej.rect.ymax + 6 ≤ ei.rect.ymin := by
    by_cases hq : (i : Int) / (gp_session_init_colorpick C).row
        = (j : Int) / (gp_session_init_colorpick C).row
    · have hr : (i : Int) % (gp_session_init_colorpick C).row
          ≠ (j : Int) % (gp_session_init_colorpick C).row := by
        intro hr
        apply hne
        rw [← hdi, ← hdj, hq, hr]
      omega
    · omega
  refine ⟨hsep, ?_⟩
  intro x y hxy
  obtain ⟨⟨h1, h2, h3, h4⟩, ⟨h5, h6, h7, h8⟩⟩ := hxy
  omega

/-- C10: the table entry built for a palette colour has stroke colour `rgba`
equal to the palette colour's `rgb`; its `fill` is the palette colour's `fill`
when the alpha component of that fill is greater than 0, and the palette
colour's `rgb` otherwise, in particular when the alpha is `<= 0`. -/
theorem init_entry_colors (C : bContext) (k : Nat) (pc : PaletteColor) (e : tGPDpickColor)
    (hpc : (C.palettes C.paletteslot_palette).colors[k]? = some pc)
    (he : (gp_session_init_colorpick C).colors[k]? = some e) :
    e.rgba = pc.rgb ∧
    (pc.fill.v3.gt_zero = true → e.fill = pc.fill) ∧
    (pc.fill.v3.gt_zero = false → e.fill = pc.rgb) ∧
    (pc.fill.v3.le_zero = true → e.fill = pc.rgb) := by
  rw [init_colors_entry, hpc] at he
  simp only [Option.map_some', Option.some.injEq] at he
  subst he
  have hle : pc.fill.v3.le_zero = true → pc.fill.v3.gt_zero = false := by
    cases pc.fill.v3 with
    | nan => simp [CFloat.le_zero, CFloat.gt_zero]
    | inf neg => cases neg <;> simp [CFloat.le_zero, CFloat.gt_zero]
    | fin neg mant ex =>
      cases neg <;> simp [CFloat.le_zero, CFloat.gt_zero]
  refine ⟨rfl, ?_, ?_, ?_⟩
  · intro h; simp [load_color, copy_v4_v4, h]
  · intro h; simp [load_color, copy_v4_v4, h]
  · intro h; simp [load_color, copy_v4_v4, hle h]

/-- The theorem of C8 at the sample context, whose region is 66 high. -/
theorem init_swatch_inside_panel_witness :
    (36 : Int) ≤ sample_context.region_visible_rect.ymax
        - sample_context.region_visible_rect.ymin ∧
    ∀ e ∈ (gp_session_init_colorpick sample_context).colors,
      (gp_session_init_colorpick sample_context).panel.xmin + 6 ≤ e.rect.xmin ∧
      e.rect.xmax ≤ (gp_session_init_colorpick sample_context).panel.xmax - 6 ∧
      (gp_session_init_colorpick sample_context).panel.ymin + 6 ≤ e.rect.ymin ∧
      e.rect.ymax ≤ (gp_session_init_colorpick sample_context).panel.ymax - 6 :=
  ⟨by decide, init_swatch_inside_panel sample_context (by decide)⟩

/-- The theorem of C9 at the first two swatches of the sample context. -/
theorem init_swatches_disjoint_witness :
    (gp_session_init_colorpick sample_context).colors[0]? = some sample_swatch0 ∧
    (gp_session_init_colorpick sample_context).colors[1]? = some sample_swatch1 ∧
    (sample_swatch0.rect.xmax + 6 ≤ sample_swatch1.rect.xmin ∨
      sample_swatch1.rect.xmax + 6 ≤ sample_swatch0.rect.xmin ∨
      sample_swatch0.rect.ymax + 6 ≤ sample_swatch1.rect.ymin ∨
      sample_swatch1.rect.ymax + 6 ≤ sample_swatch0.rect.ymin) ∧
    ∀ x y : Int, ¬ (sample_swatch0.rect.contains x y ∧ sample_swatch1.rect.contains x y) :=
  ⟨by rfl, by rfl,
    init_swatches_disjoint sample_context 0 1 sample_swatch0 sample_swatch1
      (by decide) (by rfl) (by rfl)⟩

/-- The theorem of C10 at the second colour of the sample context, whose fill
has alpha one half. -/
theorem init_entry_colors_witness :
    (sample_context.palettes sample_context.paletteslot_palette).colors[1]?
        = some sample_green ∧
    (gp_session_init_colorpick sample_context).colors[1]? = some sample_swatch1 ∧
    sample_swatch1.rgba = sample_green.rgb ∧
    (sample_green.fill.v3.gt_zero = true → sample_swatch1.fill = sample_green.fill) ∧
    (sample_green.fill.v3.gt_zero = false → sample_swatch1.fill = sample_green.rgb) ∧
    (sample_green.fill.v3.le_zero = true → sample_swatch1.fill = sample_green.rgb) :=
  ⟨by rfl, by rfl,
    init_entry_colors sample_context 1 sample_green sample_swatch1 (by rfl) (by rfl)⟩

/-! ## Claims about `gpencil_colorpick_modal` -/

/-- The branches of `switch (event->type)` with a session attached: which one
is taken, the `estate` it leaves and the host calls it makes. -/
theorem modal_event_switch_cases (K : HostConsts) (tgpk : tGPDpick) (event : wmEvent) :
    ((event.type = K.ESCKEY ∨ event.type = K.RIGHTMOUSE) ∧
      modal_event_switch K (some tgpk) event = some (K.OPERATOR_CANCELLED, [])) ∨
    (¬ (event.type = K.ESCKEY ∨ event.type = K.RIGHTMOUSE) ∧ event.type = K.MOUSEMOVE ∧
      tgpk.panel.contains event.mval.1 event.mval.2 ∧
      modal_event_switch K (some tgpk) event = some (K.OPERATOR_PASS_THROUGH,
        [HostCall.WM_cursor_modal_set tgpk.win K.BC_EYEDROPPER_CURSOR])) ∨
    (¬ (event.type = K.ESCKEY ∨ event.type = K.RIGHTMOUSE) ∧ event.type = K.MOUSEMOVE ∧
      ¬ tgpk.panel.contains event.mval.1 event.mval.2 ∧
      modal_event_switch K (some tgpk) event = some (K.OPERATOR_PASS_THROUGH,
        [HostCall.WM_cursor_modal_set tgpk.win K.CURSOR_STD])) ∨
    (¬ (event.type = K.ESCKEY ∨ event.type = K.RIGHTMOUSE) ∧ event.type ≠ K.MOUSEMOVE ∧
      event.type = K.LEFTMOUSE ∧
      modal_event_switch K (some tgpk) event = some (K.OPERATOR_FINISHED, [])) ∨
    (¬ (event.type = K.ESCKEY ∨ event.type = K.RIGHTMOUSE) ∧ event.type ≠ K.MOUSEMOVE ∧
      event.type ≠ K.LEFTMOUSE ∧
      modal_event_switch K (some tgpk) event = some (K.OPERATOR_PASS_THROUGH, [])) := by
  unfold modal_event_switch
  by_cases hcan : event.type = K.ESCKEY ∨ event.type = K.RIGHTMOUSE
  · left
    exact ⟨hcan, if_pos hcan⟩
  · right
    by_cases hm : event.type = K.MOUSEMOVE
    · by_cases hin : tgpk.panel.contains event.mval.1 event.mval.2
      · left
        refine ⟨hcan, hm, hin, ?_⟩
        rw [if_neg hcan, if_pos hm]
        exact if_pos (by unfold rcti.contains at hin; exact hin)
      · right; left
        refine ⟨hcan, hm, hin, ?_⟩
        rw [if_neg hcan, if_pos hm]
        exact if_neg (by unfold rcti.contains at hin; exact hin)
    · right; right
      by_cases hl : event.type = K.LEFTMOUSE
      · left
        refine ⟨hcan, hm, hl, ?_⟩
        rw [if_neg hcan, if_neg hm, if_pos hl]
      · right
        refine ⟨hcan, hm, hl, ?_⟩
        rw [if_neg hcan, if_neg hm, if_neg hl]

/-- The handler returns the `estate` chosen by the event switch and leaves the
host's palette memory as it found it; it runs `gpencil_colorpick_exit` exactly
when that `estate` is finished or cancelled. -/
theorem modal_result (K : HostConsts) (C : bContext) (op : wmOperator) (event : wmEvent)
    (estate : Nat) (calls : List HostCall)
    (h : modal_event_switch K op.customdata event = some (estate, calls)) :
    ∃ r, gpencil_colorpick_modal K C op event = some r ∧ r.estate = estate ∧
      r.palettes = C.palettes ∧
      ((estate = K.OPERATOR_FINISHED ∨ estate = K.OPERATOR_CANCELLED) →
        r.op = (gpencil_colorpick_exit C op).1 ∧
        r.calls = calls ++ (gpencil_colorpick_exit C op).2) ∧
      (¬ (estate = K.OPERATOR_FINISHED ∨ estate = K.OPERATOR_CANCELLED) →
        r.op = op ∧ r.calls = calls) := by
  unfold gpencil_colorpick_modal
  rw [h]
  simp only
  split_ifs with h1 h2 h3
  · exact ⟨_, rfl, rfl, rfl, fun _ => ⟨rfl, rfl⟩, fun hn => absurd (Or.inl h1) hn⟩
  · exact ⟨_, rfl, rfl, rfl, fun _ => ⟨rfl, rfl⟩, fun hn => absurd (Or.inr h2) hn⟩
  · refine ⟨_, rfl, rfl, rfl, fun hc => ?_, fun _ => ⟨rfl, rfl⟩⟩
    rcases hc with hc | hc
    · exact absurd hc h1
    · exact absurd hc h2
  · refine ⟨_, rfl, rfl, rfl, fun hc => ?_, fun _ => ⟨rfl, rfl⟩⟩
    rcases hc with hc | hc
    · exact absurd hc h1
    · exact absurd hc h2

/-- C2: with a session attached, `gpencil_colorpick_modal` returns
`OPERATOR_CANCELLED` for `ESCKEY` and `RIGHTMOUSE`, `OPERATOR_FINISHED` for
`LEFTMOUSE` whatever the pointer position, and `OPERATOR_PASS_THROUGH` for
every other event type, `MOUSEMOVE` included. -/
theorem modal_return_value (K : HostConsts) (hK : K.case_labels_distinct) (C : bContext)
    (op : wmOperator) (tgpk : tGPDpick) (hs : op.customdata = some tgpk) (event : wmEvent) :
    ∃ r, gpencil_colorpick_modal K C op event = some r ∧
      ((event.type = K.ESCKEY ∨ event.type = K.RIGHTMOUSE) →
        r.estate = K.OPERATOR_CANCELLED) ∧
      (event.type = K.LEFTMOUSE → r.estate = K.OPERATOR_FINISHED) ∧
      (event.type = K.MOUSEMOVE → r.estate = K.OPERATOR_PASS_THROUGH) ∧
      (event.type ≠ K.ESCKEY → event.type ≠ K.RIGHTMOUSE → event.type ≠ K.LEFTMOUSE →
        r.estate = K.OPERATOR_PASS_THROUGH) := by
  obtain ⟨h1, h2, h3, h4, h5, h6⟩ := hK
  rcases modal_event_switch_cases K tgpk event with
    ⟨hc, hsw⟩ | ⟨hc, hm, -, hsw⟩ | ⟨hc, hm, -, hsw⟩ | ⟨hc, hm, hl, hsw⟩ | ⟨hc, hm, hl, hsw⟩ <;>
  · rw [← hs] at hsw
    obtain ⟨r, hr, hest, -, -, -⟩ := modal_result K C op event _ _ hsw
    refine ⟨r, hr, ?_, ?_, ?_, ?_⟩ <;> intros <;> omega

/-- C3: with a session attached, `gpencil_colorpick_modal` clears the
operator's `customdata` (through `gpencil_colorpick_exit`) exactly when the
event type is `ESCKEY`, `RIGHTMOUSE` or `LEFTMOUSE`; after any other event the
same session, with every field unchanged, is still attached. -/
theorem modal_session_lifecycle (K : HostConsts) (hK : K.case_labels_distinct)
    (hP : K.pass_through_distinct) (C : bContext) (op : wmOperator) (tgpk : tGPDpick)
    (hs : op.customdata = some tgpk) (event : wmEvent) :
    ∃ r, gpencil_colorpick_modal K C op event = some r ∧
      (r.op.customdata = none ↔
        (event.type = K.ESCKEY ∨ event.type = K.RIGHTMOUSE ∨ event.type = K.LEFTMOUSE)) ∧
      ((event.type = K.ESCKEY ∨ event.type = K.RIGHTMOUSE ∨ event.type = K.LEFTMOUSE) →
        r.op = (gpencil_colorpick_exit C op).1) ∧
      (¬ (event.type = K.ESCKEY ∨ event.type = K.RIGHTMOUSE ∨ event.type = K.LEFTMOUSE) →
        r.op.customdata = some tgpk) := by
  obtain ⟨h1, h2, h3, h4, h5, h6⟩ := hK
  obtain ⟨p1, p2⟩ := hP
  have ends : ∀ (r : ModalResult) (estate : Nat),
      (event.type = K.ESCKEY ∨ event.type = K.RIGHTMOUSE ∨ event.type = K.LEFTMOUSE) →
      ((estate = K.OPERATOR_FINISHED ∨ estate = K.OPERATOR_CANCELLED) →
        r.op = (gpencil_colorpick_exit C op).1 ∧ True) →
      (estate = K.OPERATOR_FINISHED ∨ estate = K.OPERATOR_CANCELLED) →
      (r.op.customdata = none ↔
        (event.type = K.ESCKEY ∨ event.type = K.RIGHTMOUSE ∨ event.type = K.LEFTMOUSE)) ∧
      ((event.type = K.ESCKEY ∨ event.type = K.RIGHTMOUSE ∨ event.type = K.LEFTMOUSE) →
        r.op = (gpencil_colorpick_exit C op).1) ∧
      (¬ (event.type = K.ESCKEY ∨ event.type = K.RIGHTMOUSE ∨ event.type = K.LEFTMOUSE) →
        r.op.customdata = some tgpk) := by
    intro r estate hty hex hest
    have hop := (hex hest).1
    refine ⟨⟨fun _ => hty, fun _ => ?_⟩, fun _ => hop, fun hn => absurd hty hn⟩
    rw [hop]; rfl
  have stays : ∀ (r : ModalResult) (estate : Nat),
      ¬ (event.type = K.ESCKEY ∨ event.type = K.RIGHTMOUSE ∨ event.type = K.LEFTMOUSE) →
      (¬ (estate = K.OPERATOR_FINISHED ∨ estate = K.OPERATOR_CANCELLED) → r.op = op ∧ True) →
      ¬ (estate = K.OPERATOR_FINISHED ∨ estate = K.OPERATOR_CANCELLED) →
      (r.op.customdata = none ↔
        (event.type = K.ESCKEY ∨ event.type = K.RIGHTMOUSE ∨ event.type = K.LEFTMOUSE)) ∧
      ((event.type = K.ESCKEY ∨ event.type = K.RIGHTMOUSE ∨ event.type = K.LEFTMOUSE) →
        r.op = (gpencil_colorpick_exit C op).1) ∧
      (¬ (event.type = K.ESCKEY ∨ event.type = K.RIGHTMOUSE ∨ event.type = K.LEFTMOUSE) →
        r.op.customdata = some tgpk) := by
    intro r estate hty hkeep hest
    have hop := (hkeep hest).1
    have hcd : r.op.customdata = some tgpk := by rw [hop, hs]
    refine ⟨⟨fun hnone => ?_, fun h => absurd h hty⟩, fun h => absurd h hty, fun _ => hcd⟩
    rw [hcd] at hnone
    exact Option.noConfusion hnone
  rcases modal_event_switch_cases K tgpk event with
    ⟨hc, hsw⟩ | ⟨hc, hm, -, hsw⟩ | ⟨hc, hm, -, hsw⟩ | ⟨hc, hm, hl, hsw⟩ | ⟨hc, hm, hl, hsw⟩
  · rw [← hs] at hsw
    obtain ⟨r, hr, -, -, hex, -⟩ := modal_result K C op event _ _ hsw
    exact ⟨r, hr, ends r _ (by omega) (fun h => ⟨(hex h).1, trivial⟩) (Or.inr rfl)⟩
  · rw [← hs] at hsw
    obtain ⟨r, hr, -, -, -, hkeep⟩ := modal_result K C op event _ _ hsw
    exact ⟨r, hr, stays r _ (by omega) (fun h => ⟨(hkeep h).1, trivial⟩) (by omega)⟩
  · rw [← hs] at hsw
    obtain ⟨r, hr, -, -, -, hkeep⟩ := modal_result K C op event _ _ hsw
    exact ⟨r, hr, stays r _ (by omega) (fun h => ⟨(hkeep h).1, trivial⟩) (by omega)⟩
  · rw [← hs] at hsw
    obtain ⟨r, hr, -, -, hex, -⟩ := modal_result K C op event _ _ hsw
    exact ⟨r, hr, ends r _ (by omega) (fun h => ⟨(hex h).1, trivial⟩) (Or.inl rfl)⟩
  · rw [← hs] at hsw
    obtain ⟨r, hr, -, -, -, hkeep⟩ := modal_result K C op event _ _ hsw
    exact ⟨r, hr, stays r _ (by omega) (fun h => ⟨(hkeep h).1, trivial⟩) (by omega)⟩

/-- C6: on `MOUSEMOVE` the handler's only host call sets the modal cursor of
the session's window, to the eyedropper exactly when the pointer lies in the
panel rectangle with all four edges inclusive and to the standard cursor
otherwise; for any other event type after which the session is still
attached, the handler makes no cursor call. -/
theorem modal_cursor (K : HostConsts) (hK : K.case_labels_distinct)
    (hP : K.pass_through_distinct) (hC : K.cursors_distinct) (C : bContext)
    (op : wmOperator) (tgpk : tGPDpick) (hs : op.customdata = some tgpk) (event : wmEvent) :
    ∃ r, gpencil_colorpick_modal K C op event = some r ∧
      (event.type = K.MOUSEMOVE →
        (r.calls = [HostCall.WM_cursor_modal_set tgpk.win K.BC_EYEDROPPER_CURSOR] ↔
          (tgpk.panel.xmin ≤ event.mval.1 ∧ event.mval.1 ≤ tgpk.panel.xmax ∧
            tgpk.panel.ymin ≤ event.mval.2 ∧ event.mval.2 ≤ tgpk.panel.ymax)) ∧
        (r.calls = [HostCall.WM_cursor_modal_set tgpk.win K.CURSOR_STD] ↔
          ¬ (tgpk.panel.xmin ≤ event.mval.1 ∧ event.mval.1 ≤ tgpk.panel.xmax ∧
            tgpk.panel.ymin ≤ event.mval.2 ∧ event.mval.2 ≤ tgpk.panel.ymax))) ∧
      (event.type ≠ K.MOUSEMOVE → r.op.customdata ≠ none →
        ∀ c ∈ r.calls, c.is_cursor_call = false) := by
  obtain ⟨h1, h2, h3, h4, h5, h6⟩ := hK
  obtain ⟨p1, p2⟩ := hP
  have hne : ∀ a b : Int, a ≠ b →
      [HostCall.WM_cursor_modal_set tgpk.win a] ≠ [HostCall.WM_cursor_modal_set tgpk.win b] := by
    intro a b hab h
    simp only [List.cons.injEq, HostCall.WM_cursor_modal_set.injEq, true_and, and_true] at h
    exact hab h
  rcases modal_event_switch_cases K tgpk event with
    ⟨hc, hsw⟩ | ⟨hc, hm, hin, hsw⟩ | ⟨hc, hm, hin, hsw⟩ | ⟨hc, hm, hl, hsw⟩ | ⟨hc, hm, hl, hsw⟩
  · rw [← hs] at hsw
    obtain ⟨r, hr, -, -, hex, -⟩ := modal_result K C op event _ _ hsw
    refine ⟨r, hr, fun hm => by omega, fun _ hatt => ?_⟩
    exact absurd (by rw [(hex (Or.inr rfl)).1]; rfl) hatt
  · rw [← hs] at hsw
    obtain ⟨r, hr, -, -, -, hkeep⟩ := modal_result K C op event _ _ hsw
    have hcalls := (hkeep (by omega)).2
    refine ⟨r, hr, fun _ => ?_, fun hnm => absurd hm hnm⟩
    rw [hcalls]
    exact ⟨⟨fun _ => hin, fun _ => rfl⟩,
      ⟨fun h => absurd h (hne _ _ hC), fun h => absurd hin h⟩⟩
  · rw [← hs] at hsw
    obtain ⟨r, hr, -, -, -, hkeep⟩ := modal_result K C op event _ _ hsw
    have hcalls := (hkeep (by omega)).2
    refine ⟨r, hr, fun _ => ?_, fun hnm => absurd hm hnm⟩
    rw [hcalls]
    exact ⟨⟨fun h => absurd h (hne _ _ (Ne.symm hC)), fun h => absurd h hin⟩,
      ⟨fun _ => hin, fun _ => rfl⟩⟩
  · rw [← hs] at hsw
    obtain ⟨r, hr, -, -, hex, -⟩ := modal_result K C op event _ _ hsw
    refine ⟨r, hr, fun h => absurd h hm, fun _ hatt => ?_⟩
    exact absurd (by rw [(hex (Or.inl rfl)).1]; rfl) hatt
  · rw [← hs] at hsw
    obtain ⟨r, hr, -, -, -, hkeep⟩ := modal_result K C op event _ _ hsw
    have hcalls := (hkeep (by omega)).2
    refine ⟨r, hr, fun h => absurd h hm, fun _ _ c hcm => ?_⟩
    rw [hcalls] at hcm
    exact absurd hcm (List.not_mem_nil c)

/-- The handler never writes to the host's palette memory. -/
theorem modal_keeps_palettes (K : HostConsts) (C : bContext) (op : wmOperator)
    (event : wmEvent) (r : ModalResult)
    (h : gpencil_colorpick_modal K C op event = some r) : r.palettes = C.palettes := by
  unfold gpencil_colorpick_modal at h
  rcases hsw : modal_event_switch K op.customdata event with _ | ⟨estate, calls⟩
  · rw [hsw] at h; exact Option.noConfusion h
  · rw [hsw] at h
    simp only at h
    split_ifs at h <;>
    · simp only [Option.some.injEq] at h
      rw [← h]

/-- C1, evaluated: in the sample session the second swatch (index 1) contains
the point `(150, 20)` and the palette's active colour is 0; a `LEFTMOUSE`
event at that point makes the handler return `OPERATOR_FINISHED` and detach
the session, and the palette's `active_color` is still 0, not 1. -/
theorem modal_left_click_keeps_active_color :
    sample_op.customdata = some sample_session ∧
    sample_session.palette = some sample_context.paletteslot_palette ∧
    sample_session.colors[1]? = some sample_swatch1 ∧
    sample_swatch1.index = 1 ∧
    sample_swatch1.rect.contains sample_click.mval.1 sample_click.mval.2 ∧
    sample_click.type = sample_consts.LEFTMOUSE ∧
    (sample_context.palettes sample_context.paletteslot_palette).active_color = 0 ∧
    ∃ r, gpencil_colorpick_modal sample_consts sample_context sample_op sample_click = some r ∧
      r.estate = sample_consts.OPERATOR_FINISHED ∧
      r.op.customdata = none ∧
      (r.palettes sample_context.paletteslot_palette).active_color = 0 ∧
      (r.palettes sample_context.paletteslot_palette).active_color ≠ sample_swatch1.index := by
  refine ⟨rfl, rfl, rfl, rfl, by decide, rfl, rfl, ?_⟩
  obtain ⟨r, hr, hest, hpal, hex, -⟩ :=
    modal_result sample_consts sample_context sample_op sample_click
      sample_consts.OPERATOR_FINISHED [] rfl
  refine ⟨r, hr, hest, ?_, ?_, ?_⟩
  · rw [(hex (Or.inl rfl)).1]; rfl
  · rw [hpal]; rfl
  · rw [hpal]; decide

/-- The theorem of C2 at a left click in the sample session. -/
theorem modal_return_value_witness :
    sample_consts.case_labels_distinct ∧ sample_op.customdata = some sample_session ∧
    ∃ r, gpencil_colorpick_modal sample_consts sample_context sample_op sample_click = some r ∧
      ((sample_click.type = sample_consts.ESCKEY ∨
          sample_click.type = sample_consts.RIGHTMOUSE) →
        r.estate = sample_consts.OPERATOR_CANCELLED) ∧
      (sample_click.type = sample_consts.LEFTMOUSE →
        r.estate = sample_consts.OPERATOR_FINISHED) ∧
      (sample_click.type = sample_consts.MOUSEMOVE →
        r.estate = sample_consts.OPERATOR_PASS_THROUGH) ∧
      (sample_click.type ≠ sample_consts.ESCKEY →
        sample_click.type ≠ sample_consts.RIGHTMOUSE →
        sample_click.type ≠ sample_consts.LEFTMOUSE →
        r.estate = sample_consts.OPERATOR_PASS_THROUGH) :=
  ⟨by decide, rfl,
    modal_return_value sample_consts (by decide) sample_context sample_op sample_session rfl
      sample_click⟩

/-- The theorem of C3 at an unknown key press in the sample session. -/
theorem modal_session_lifecycle_witness :
    sample_consts.case_labels_distinct ∧ sample_consts.pass_through_distinct ∧
    sample_op.customdata = some sample_session ∧
    ∃ r, gpencil_colorpick_modal sample_consts sample_context sample_op sample_key = some r ∧
      (r.op.customdata = none ↔
        (sample_key.type = sample_consts.ESCKEY ∨ sample_key.type = sample_consts.RIGHTMOUSE ∨
          sample_key.type = sample_consts.LEFTMOUSE)) ∧
      ((sample_key.type = sample_consts.ESCKEY ∨ sample_key.type = sample_consts.RIGHTMOUSE ∨
          sample_key.type = sample_consts.LEFTMOUSE) →
        r.op = (gpencil_colorpick_exit sample_context sample_op).1) ∧
      (¬ (sample_key.type = sample_consts.ESCKEY ∨ sample_key.type = sample_consts.RIGHTMOUSE ∨
          sample_key.type = sample_consts.LEFTMOUSE) →
        r.op.customdata = some sample_session) :=
  ⟨by decide, by decide, rfl,
    modal_session_lifecycle sample_consts (by decide) (by decide) sample_context sample_op
      sample_session rfl sample_key⟩

/-- The theorem of C6 at a pointer move into the panel of the sample session. -/
theorem modal_cursor_witness :
    sample_consts.case_labels_distinct ∧ sample_consts.pass_through_distinct ∧
    sample_consts.cursors_distinct ∧ sample_op.customdata = some sample_session ∧
    ∃ r, gpencil_colorpick_modal sample_consts sample_context sample_op sample_move = some r ∧
      (sample_move.type = sample_consts.MOUSEMOVE →
        (r.calls = [HostCall.WM_cursor_modal_set sample_session.win
              sample_consts.BC_EYEDROPPER_CURSOR] ↔
          (sample_session.panel.xmin ≤ sample_move.mval.1 ∧
            sample_move.mval.1 ≤ sample_session.panel.xmax ∧
            sample_session.panel.ymin ≤ sample_move.mval.2 ∧
            sample_move.mval.2 ≤ sample_session.panel.ymax)) ∧
        (r.calls = [HostCall.WM_cursor_modal_set sample_session.win sample_consts.CURSOR_STD] ↔
          ¬ (sample_session.panel.xmin ≤ sample_move.mval.1 ∧
            sample_move.mval.1 ≤ sample_session.panel.xmax ∧
            sample_session.panel.ymin ≤ sample_move.mval.2 ∧
            sample_move.mval.2 ≤ sample_session.panel.ymax))) ∧
      (sample_move.type ≠ sample_consts.MOUSEMOVE → r.op.customdata ≠ none →
        ∀ c ∈ r.calls, c.is_cursor_call = false) :=
  ⟨by decide, by decide, by decide, rfl,
    modal_cursor sample_consts (by decide) (by decide) (by decide) sample_context sample_op
      sample_session rfl sample_move⟩

/-! ## Claims about `gpencil_draw_color_table` -/

theorem fill_box_offset_zero (r : rcti) (ink fill : Float4) :
    gp_draw_fill_box r ink fill 0 = spec_filled_rect r ink fill := by
  simp [gp_draw_fill_box, spec_filled_rect]

/-- With offset 2 the extra one-pixel `gap` applies, so the right edge moves by
3 pixels while the other three move by 2. -/
theorem fill_box_offset_two (th : ThemeColors) (r : rcti) :
    gp_draw_fill_box r (spec_select th) (spec_select th) 2 = spec_highlight th r := by
  simp [gp_draw_fill_box, spec_highlight, spec_filled_rect, add_assoc]

/-- The drawing loop, run from counter `i` over a table suffix that the counter
does not outrun, draws the swatches of that suffix in order. -/
theorem draw_color_boxes_eq (th : ThemeColors) (a totcolor : Int) :
    ∀ (l : List tGPDpickColor) (i : Nat), (i : Int) + (l.length : Int) ≤ totcolor →
      draw_color_boxes a (spec_select th) (spec_line th) totcolor (i : Int) l
        = ((l.enumFrom i).map (fun ic => spec_swatch th a ic.1 ic.2)).flatten := by
  intro l
  induction l with
  | nil => intro i _; simp [draw_color_boxes]
  | cons col rest ih =>
    intro i hle
    have hlen : ((col :: rest).length : Int) = (rest.length : Int) + 1 := by
      simp [List.length_cons]
    have hi : (i : Int) < totcolor := by omega
    have hnext : ((i + 1 : Nat) : Int) + (rest.length : Int) ≤ totcolor := by
      push_cast; omega
    have hrec := ih (i + 1) hnext
    have hcast : ((i + 1 : Nat) : Int) = (i : Int) + 1 := by push_cast; rfl
    rw [hcast] at hrec
    unfold draw_color_boxes
    rw [if_pos hi, hrec]
    simp only [List.enumFrom_cons, List.map_cons, List.flatten_cons, spec_swatch,
      fill_box_offset_zero, fill_box_offset_two, List.append_assoc, List.cons_append,
      List.nil_append]

theorem highlighted_count (a : Int) :
    ∀ n : Nat, ((List.range n).filter (fun i : Nat => decide (a = (i : Int)))).length
      = if 0 ≤ a ∧ a < (n : Int) then 1 else 0 := by
  intro n
  induction n with
  | zero =>
    have : ¬ (0 ≤ a ∧ a < (0 : Int)) := by omega
    simp [this]
  | succ n ih =>
    rw [List.range_succ, List.filter_append, List.length_append, ih]
    have hc : ((n + 1 : Nat) : Int) = (n : Int) + 1 := by push_cast; rfl
    rw [hc]
    by_cases hn : a = (n : Int)
    · have hlast : (List.filter (fun i : Nat => decide (a = (i : Int))) [n]).length = 1 := by
        simp [hn]
      rw [hlast]
      split_ifs <;> omega
    · have hlast : (List.filter (fun i : Nat => decide (a = (i : Int))) [n]).length = 0 := by
        simp [hn]
      rw [hlast]
      split_ifs <;> omega

/-- C7, as the code has it: nothing is drawn for a session without a palette;
otherwise (the table holding `totcolor` entries) the drawing is one panel
background followed, for every swatch in table order, by its selection
highlight when and only when its position equals the palette's
`active_color`, then its fill box, then its outline. The highlight is in the
select colour and covers the swatch rectangle grown by 2 pixels to the left,
bottom and top and by 3 pixels to the right. Exactly one position is
highlighted when `0 <= active_color < totcolor` and none otherwise. -/
theorem draw_color_table_refines (th : ThemeColors) (palettes : Nat → Palette)
    (tgpk : tGPDpick) :
    (tgpk.palette = none → gpencil_draw_color_table th palettes tgpk = []) ∧
    (∀ p : Nat, tgpk.palette = some p → tgpk.totcolor = (tgpk.colors.length : Int) →
      gpencil_draw_color_table th palettes tgpk
        = spec_color_table th (palettes p).active_color tgpk ∧
      (∀ i : Nat, i ∈ highlighted_positions (palettes p).active_color tgpk ↔
        (i < tgpk.colors.length ∧ (palettes p).active_color = (i : Int))) ∧
      (highlighted_positions (palettes p).active_color tgpk).length
        = if 0 ≤ (palettes p).active_color ∧ (palettes p).active_color < tgpk.totcolor
          then 1 else 0) := by
  constructor
  · intro h
    unfold gpencil_draw_color_table
    rw [h]
  · intro p hp htot
    refine ⟨?_, ?_, ?_⟩
    · unfold gpencil_draw_color_table
      rw [hp]
      have h := draw_color_boxes_eq th (palettes p).active_color tgpk.totcolor tgpk.colors 0
        (by rw [htot]; simp)
      simp only [Nat.cast_zero] at h
      simp only [spec_select, spec_line] at h
      simp only [spec_color_table, List.enum, fill_box_offset_zero, spec_select, spec_line]
      rw [h]
    · intro i
      simp [highlighted_positions, List.mem_filter, List.mem_range]
    · rw [htot]
      exact highlighted_count _ _

/-- C7 as stated fails: in the sample session the first swatch is active, the
second batch drawn is its highlight, and that batch has the vertex
`(xmax + 3, ymax + 2)`, so it does not fit in the swatch rectangle enlarged by
2 pixels. -/
theorem draw_highlight_exceeds_two_pixels :
    sample_session.colors[0]? = some sample_swatch0 ∧
    (sample_context.palettes sample_context.paletteslot_palette).active_color = 0 ∧
    (gpencil_draw_color_table sample_theme sample_context.palettes sample_session)[1]?
      = some (gp_draw_fill_box sample_swatch0.rect (spec_select sample_theme)
          (spec_select sample_theme) 2) ∧
    ({ color := spec_select sample_theme, x := sample_swatch0.rect.xmax + 3,
       y := sample_swatch0.rect.ymax + 2 } : Vertex)
      ∈ (gp_draw_fill_box sample_swatch0.rect (spec_select sample_theme)
          (spec_select sample_theme) 2).verts ∧
    ¬ (gp_draw_fill_box sample_swatch0.rect (spec_select sample_theme)
          (spec_select sample_theme) 2).within (sample_swatch0.rect.grow 2) := by
  refine ⟨rfl, rfl, rfl, by decide, by decide⟩

/-- The theorem of C7 at the sample session, whose first swatch is active. -/
theorem draw_color_table_refines_witness :
    sample_session.palette = some sample_context.paletteslot_palette ∧
    sample_session.totcolor = (sample_session.colors.length : Int) ∧
    gpencil_draw_color_table sample_theme sample_context.palettes sample_session
      = spec_color_table sample_theme
          (sample_context.palettes sample_context.paletteslot_palette).active_color
          sample_session ∧
    highlighted_positions
        (sample_context.palettes sample_context.paletteslot_palette).active_color
        sample_session = [0] :=
  ⟨rfl, rfl,
    ((draw_color_table_refines sample_theme sample_context.palettes sample_session).2
      sample_context.paletteslot_palette rfl rfl).1,
    by decide⟩

end GPColorpick
